import Mathlib

/-
Shallow embedding of the go-csrf middleware (package csrf: options.go,
token.go, csrf.go) together with proofs about its request-filtering
behaviour.  Go strings are modelled as Lean strings; `[]byte(s)` is
modelled by `strBytes` (UTF-8 bytes as naturals); the random source that
`crypto/rand.Read` consults is passed in explicitly as an
`Option (List Nat)` (`none` = the source errored, `some bs` = the bytes
it produced); `net/url.Parse` host extraction is passed in as an oracle
`parse : String → Option String` (`none` = parse error, `some h` = the
parsed URL's Host component).
-/

namespace GoCsrf

/-- Mirrors `Config` from options.go.  `cookieSameSite` models Go's
`http.SameSite` integer constants (`0` is the unset zero value,
`2` is `http.SameSiteLaxMode`); `cookieMaxAge` and `tokenBytes` are Go
`int` fields. -/
structure Config where
  cookieName : String
  cookiePath : String
  cookieDomain : String
  cookieSecure : Bool
  cookieHTTPOnly : Bool
  cookieSameSite : Int
  cookieMaxAge : Int
  headerName : String
  formField : String
  enforceOriginCheck : Bool
  allowedOrigin : String
  tokenBytes : Int
deriving DecidableEq

/-- Go constant `http.SameSiteLaxMode`. -/
def sameSiteLax : Int := 2

/-- Mirrors `New` from options.go: the defaulting applied to a caller
supplied `Config` (field order: cookieName, cookiePath, cookieDomain,
cookieSecure, cookieHTTPOnly, cookieSameSite, cookieMaxAge, headerName,
formField, enforceOriginCheck, allowedOrigin, tokenBytes). -/
def new (cfg : Config) : Config :=
  ⟨if cfg.cookieName = "" then "csrf_token" else cfg.cookieName,
   if cfg.cookiePath = "" then "/" else cfg.cookiePath,
   cfg.cookieDomain,
   cfg.cookieSecure,
   cfg.cookieHTTPOnly,
   if cfg.cookieSameSite = 0 then sameSiteLax else cfg.cookieSameSite,
   cfg.cookieMaxAge,
   if cfg.headerName = "" then "X-CSRF-Token" else cfg.headerName,
   if cfg.formField = "" then "csrf_token" else cfg.formField,
   cfg.enforceOriginCheck,
   cfg.allowedOrigin,
   if cfg.tokenBytes ≤ 0 then 32 else cfg.tokenBytes⟩

/-- Model of an incoming `*http.Request`, exposing exactly the accessors
the middleware uses: `r.Method`, `r.Host`, `r.Header.Get` (empty string
when the header is absent), `r.Form.Get` after `ParseForm` (empty string
when the field is absent; a `ParseForm` error is ignored by the source,
so an unparsable body is simply a form with no fields), and `r.Cookie`
(`none` models the `http.ErrNoCookie` error). -/
structure Request where
  method : String
  host : String
  header : String → String
  form : String → String
  cookie : String → Option String

/-- Mirrors the `unsafeMethods` map of csrf.go: membership of a method in
the set that requires CSRF validation (map lookup of a missing key yields
`false`). -/
def unsafeMethods (m : String) : Bool :=
  m == "POST" || m == "PUT" || m == "PATCH" || m == "DELETE"

/-- UTF-8 encoding of a single character, modelling how Go lays out a
`string` as bytes (Go source literals and header values are UTF-8). -/
def charUTF8 (c : Char) : List Nat :=
  if c.toNat < 128 then [c.toNat]
  else if c.toNat < 2048 then [192 + c.toNat / 64, 128 + c.toNat % 64]
  else if c.toNat < 65536 then
    [224 + c.toNat / 4096, 128 + c.toNat / 64 % 64, 128 + c.toNat % 64]
  else
    [240 + c.toNat / 262144, 128 + c.toNat / 4096 % 64, 128 + c.toNat / 64 % 64,
      128 + c.toNat % 64]

/-- UTF-8 encoding of a character list. -/
def utf8Encode : List Char → List Nat
  | [] => []
  | c :: cs => charUTF8 c ++ utf8Encode cs

/-- Models Go's `[]byte(s)` conversion: the UTF-8 bytes of a string.
Go's `len(s)` is `(strBytes s).length`. -/
def strBytes (s : String) : List Nat :=
  utf8Encode s.data

/-- The URL-safe base64 alphabet used by `encoding/base64.RawURLEncoding`. -/
def b64urlAlphabet : List Char :=
  "ABCDEFGHIJKLMNOPQRSTUVWXYZabcdefghijklmnopqrstuvwxyz0123456789-_".toList

/-- Digit-to-character map of the URL-safe base64 alphabet. -/
def b64Char (i : Nat) : Char := b64urlAlphabet.getD i 'A'

/-- Membership in the URL-safe base64 character class
A-Z, a-z, 0-9, minus, underscore. -/
def isBase64URLChar (c : Char) : Bool :=
  ('A' ≤ c && c ≤ 'Z') || ('a' ≤ c && c ≤ 'z') || ('0' ≤ c && c ≤ '9') ||
    c == '-' || c == '_'

/-- Mirrors `base64.RawURLEncoding.EncodeToString`: groups of three input
bytes become four output digits; a trailing single byte becomes two
digits and a trailing pair becomes three digits; no padding characters
are emitted. -/
def base64RawURLChars : List Nat → List Char
  | [] => []
  | [b0] => [b64Char (b0 / 4), b64Char (b0 % 4 * 16)]
  | [b0, b1] => [b64Char (b0 / 4), b64Char (b0 % 4 * 16 + b1 / 16), b64Char (b1 % 16 * 4)]
  | b0 :: b1 :: b2 :: rest =>
      b64Char (b0 / 4) :: b64Char (b0 % 4 * 16 + b1 / 16) ::
        b64Char (b1 % 16 * 4 + b2 / 64) :: b64Char (b2 % 64) :: base64RawURLChars rest

/-- `base64.RawURLEncoding.EncodeToString` as a string. -/
def base64RawURLEncode (bs : List Nat) : String :=
  String.mk (base64RawURLChars bs)

/-- Mirrors `newToken` from token.go.  `n` is the byte count handed to
`make([]byte, n)`; `entropy` stands for the outcome of `rand.Read` on
that buffer: `none` when the random source errors (then `newToken`
returns the error), `some bs` when it filled the buffer with bytes `bs`
(by the contract of `rand.Read`, `bs.length = n`, carried as a
hypothesis in the theorems below). -/
def newToken (n : Int) (entropy : Option (List Nat)) : Option String :=
  match n, entropy with
  | _, none => none
  | _, some bs => some (base64RawURLEncode bs)

/-- Mirrors `extractClientToken` from token.go: the header value wins if
non-empty, else the form field value if non-empty, else empty. -/
def extractClientToken (r : Request) (headerName formField : String) : String :=
  if r.header headerName ≠ "" then r.header headerName
  else if r.form formField ≠ "" then r.form formField
  else ""

/-- Models `strings.EqualFold` restricted to ASCII case folding (host
names compared by `sameSite` are ASCII). -/
def eqFold (a b : String) : Bool :=
  a.data.map Char.toLower == b.data.map Char.toLower

/-- Mirrors `sameSite` from token.go: parse the presented URL and compare
its Host component (host plus port) case-insensitively with the allowed
host; a parse error yields `false`. -/
def sameSite (parse : String → Option String) (originOrRef allowedHost : String) : Bool :=
  match parse originOrRef with
  | none => false
  | some h => eqFold h allowedHost

/-- Mirrors `validateOriginOrReferer` from csrf.go.  Returns `none` when
the request is acceptable and `some message` otherwise. -/
def validateOriginOrReferer (parse : String → Option String) (r : Request)
    (allowed : String) : Option String :=
  let host := if allowed = "" then r.host else allowed
  let origin := r.header "Origin"
  let ref := r.header "Referer"
  if origin = "" ∧ ref = "" then some "no origin/referer"
  else if origin ≠ "" ∧ sameSite parse origin host = false then some "bad origin"
  else if origin = "" ∧ ref ≠ "" ∧ sameSite parse ref host = false then some "bad referer"
  else none

/-- The cookie written by `http.SetCookie` in `ensureCookieToken` (field
order: name, value, path, domain, maxAge, sameSite, secure, httpOnly). -/
structure SetCookie where
  name : String
  value : String
  path : String
  domain : String
  maxAge : Int
  sameSite : Int
  secure : Bool
  httpOnly : Bool
deriving DecidableEq

/-- The test `ensureCookieToken` applies to the incoming cookie: present
and at least 16 bytes long. -/
def cookieLooksValid (cfg : Config) (r : Request) : Bool :=
  match r.cookie cfg.cookieName with
  | some v => decide (16 ≤ (strBytes v).length)
  | none => false

/-- Mirrors `ensureCookieToken` from csrf.go.  Result `none` models the
error return (token generation failed); `some (tok, sc)` gives the
resolved token and the cookie written to the response (`sc = none` when
the existing cookie was reused and nothing was written). -/
def ensureCookieToken (cfg : Config) (entropy : Option (List Nat)) (r : Request) :
    Option (String × Option SetCookie) :=
  match r.cookie cfg.cookieName with
  | some v =>
      if 16 ≤ (strBytes v).length then some (v, none)
      else
        match newToken cfg.tokenBytes entropy with
        | none => none
        | some tok =>
            some (tok, some ⟨cfg.cookieName, tok, cfg.cookiePath, cfg.cookieDomain,
              cfg.cookieMaxAge, cfg.cookieSameSite, cfg.cookieSecure, cfg.cookieHTTPOnly⟩)
  | none =>
      match newToken cfg.tokenBytes entropy with
      | none => none
      | some tok =>
          some (tok, some ⟨cfg.cookieName, tok, cfg.cookiePath, cfg.cookieDomain,
            cfg.cookieMaxAge, cfg.cookieSameSite, cfg.cookieSecure, cfg.cookieHTTPOnly⟩)

/-- Models `subtle.ConstantTimeByteEq` from crypto/subtle (Go standard
library): `int((uint32(x ^^ y) - 1) >> 31)`, which is 1 exactly when the
two bytes are equal. -/
def constantTimeByteEq (x y : Nat) : Nat :=
  (((x ^^^ y) + (2 ^ 32 - 1)) % 2 ^ 32) >>> 31

/-- The loop of `subtle.ConstantTimeCompare`, instrumented with a step
count: the first component is the running `v |= x[i] ^ y[i]`
accumulator, the second counts the loop iterations executed. -/
def ctcLoop : List Nat → List Nat → Nat × Nat
  | x :: xs, y :: ys =>
      let rest := ctcLoop xs ys
      ((x ^^^ y) ||| rest.1, rest.2 + 1)
  | _, _ => (0, 0)

/-- Models `subtle.ConstantTimeCompare` from crypto/subtle (Go standard
library): 0 when the lengths differ, otherwise 1 exactly when the
xor-accumulator over all byte pairs is zero. -/
def constantTimeCompare (x y : List Nat) : Nat :=
  if x.length ≠ y.length then 0
  else constantTimeByteEq (ctcLoop x y).1 0

/-- Number of loop iterations `subtle.ConstantTimeCompare` executes on
the given inputs (0 when the length guard returns early). -/
def compareSteps (x y : List Nat) : Nat :=
  if x.length ≠ y.length then 0 else (ctcLoop x y).2

/-- Outcome of the filter on one request: either the downstream handler
`next` was invoked, or `http.Error(w, body, status)` terminated the
request. -/
inductive Outcome where
  | next : Outcome
  | reject : Nat → String → Outcome
deriving DecidableEq

/-- Observable effects of one run of the handler returned by `Protect`:
the cookie written via `http.SetCookie` (if any), the token bound into
the request context (if processing got that far), and the outcome. -/
structure ProtectResult where
  setCookie : Option SetCookie
  ctxToken : Option String
  outcome : Outcome
deriving DecidableEq

/-- Mirrors the handler body of `Protect` from csrf.go: ensure the
cookie, bind the token into the context, short-cut safe methods, then
origin check (when enabled), token extraction and constant-time
comparison. -/
def protect (cfg : Config) (parse : String → Option String) (entropy : Option (List Nat))
    (r : Request) : ProtectResult :=
  match ensureCookieToken cfg entropy r with
  | none => ⟨none, none, Outcome.reject 500 "failed to set CSRF cookie"⟩
  | some (cookieToken, sc) =>
      if unsafeMethods r.method = false then ⟨sc, some cookieToken, Outcome.next⟩
      else if cfg.enforceOriginCheck = true ∧
          (validateOriginOrReferer parse r cfg.allowedOrigin).isSome then
        ⟨sc, some cookieToken, Outcome.reject 403 "invalid origin"⟩
      else
        let clientToken := extractClientToken r cfg.headerName cfg.formField
        if clientToken = "" then ⟨sc, some cookieToken, Outcome.reject 403 "missing CSRF token"⟩
        else if constantTimeCompare (strBytes clientToken) (strBytes cookieToken) ≠ 1 then
          ⟨sc, some cookieToken, Outcome.reject 403 "bad CSRF token"⟩
        else ⟨sc, some cookieToken, Outcome.next⟩

/-! Supporting lemmas. -/

/-- A bitwise or of naturals is zero exactly when both operands are. -/
theorem lor_eq_zero_iff (a b : Nat) : a ||| b = 0 ↔ a = 0 ∧ b = 0 := by
  constructor
  · intro h
    refine ⟨?_, ?_⟩ <;> by_contra hne
    · obtain ⟨i, hi⟩ := Nat.ne_zero_implies_bit_true hne
      have ht := Nat.testBit_or a b i
      rw [h, Nat.zero_testBit, hi] at ht
      simp at ht
    · obtain ⟨i, hi⟩ := Nat.ne_zero_implies_bit_true hne
      have ht := Nat.testBit_or a b i
      rw [h, Nat.zero_testBit, hi] at ht
      simp at ht
  · rintro ⟨rfl, rfl⟩
    rfl

/-- Every Unicode scalar value is below 1114112. -/
theorem char_toNat_lt (c : Char) : c.toNat < 1114112 := by
  have h := c.valid
  simp only [UInt32.isValidChar, Nat.isValidChar] at h
  have : c.toNat = c.val.toNat := rfl
  rw [this]
  rcases h with h | ⟨_, h⟩ <;> omega

/-- UTF-8 code units are bytes. -/
theorem charUTF8_lt (c : Char) : ∀ b ∈ charUTF8 c, b < 256 := by
  intro b hb
  have hv := char_toNat_lt c
  unfold charUTF8 at hb
  split at hb <;> [skip; split at hb] <;> [skip; skip; split at hb] <;>
    fin_cases hb <;> omega

/-- The UTF-8 encoding of a character is never empty. -/
theorem charUTF8_ne_nil (c : Char) : charUTF8 c ≠ [] := by
  unfold charUTF8
  split <;> [skip; split] <;> [skip; skip; split] <;> simp

/-- All bytes of a UTF-8 encoded character list are below 256. -/
theorem utf8Encode_lt (cs : List Char) : ∀ b ∈ GoCsrf.utf8Encode cs, b < 256 := by
  induction cs with
  | nil => intro b hb; simp [GoCsrf.utf8Encode] at hb
  | cons c cs ih =>
      intro b hb
      simp only [GoCsrf.utf8Encode, List.mem_append] at hb
      rcases hb with hb | hb
      · exact charUTF8_lt c b hb
      · exact ih b hb

/-- All bytes of a Go string are below 256. -/
theorem strBytes_lt (s : String) : ∀ b ∈ GoCsrf.strBytes s, b < 256 :=
  utf8Encode_lt s.data

/-- A string has no UTF-8 bytes exactly when it is empty. -/
theorem strBytes_eq_nil (s : String) : GoCsrf.strBytes s = [] ↔ s = "" := by
  cases s with
  | mk cs =>
      constructor
      · intro h
        cases cs with
        | nil => rfl
        | cons c cs =>
            exfalso
            simp only [GoCsrf.strBytes, GoCsrf.utf8Encode, List.append_eq_nil] at h
            exact charUTF8_ne_nil c h.1
      · intro h
        rw [h]
        rfl

/-- Characterisation of the modelled `subtle.ConstantTimeByteEq` against
zero on byte-sized accumulators. -/
theorem constantTimeByteEq_spec (v : Nat) (h : v < 256) :
    GoCsrf.constantTimeByteEq v 0 = if v = 0 then 1 else 0 := by
  unfold GoCsrf.constantTimeByteEq
  rw [Nat.xor_zero, Nat.shiftRight_eq_div_pow]
  by_cases hv : v = 0
  · subst hv
    norm_num
  · rw [if_neg hv]
    norm_num
    omega

/-- The comparison loop executes once per byte pair available. -/
theorem ctcLoop_snd (x : List Nat) : ∀ y : List Nat,
    (GoCsrf.ctcLoop x y).2 = min x.length y.length := by
  induction x with
  | nil => intro y; cases y <;> simp [GoCsrf.ctcLoop]
  | cons a as ih =>
      intro y
      cases y with
      | nil => simp [GoCsrf.ctcLoop]
      | cons b bs =>
          simp only [GoCsrf.ctcLoop, ih bs, List.length_cons]
          omega

/-- The accumulator of the comparison loop stays byte-sized on byte
inputs. -/
theorem ctcLoop_fst_lt (x : List Nat) : ∀ y : List Nat,
    (∀ b ∈ x, b < 256) → (∀ b ∈ y, b < 256) → (GoCsrf.ctcLoop x y).1 < 256 := by
  induction x with
  | nil => intro y _ _; cases y <;> simp [GoCsrf.ctcLoop]
  | cons a as ih =>
      intro y hx hy
      cases y with
      | nil => simp [GoCsrf.ctcLoop]
      | cons b bs =>
          have h256 : (256 : Nat) = 2 ^ 8 := rfl
          simp only [GoCsrf.ctcLoop]
          rw [h256]
          apply Nat.or_lt_two_pow
          · apply Nat.xor_lt_two_pow <;> rw [← h256]
            · exact hx a (List.mem_cons_self a as)
            · exact hy b (List.mem_cons_self b bs)
          · rw [← h256]
            exact ih bs (fun v hv => hx v (List.mem_cons_of_mem a hv))
              (fun v hv => hy v (List.mem_cons_of_mem b hv))

/-- On equal-length inputs the accumulator vanishes exactly when the two
byte lists coincide. -/
theorem ctcLoop_fst_eq_zero (x : List Nat) : ∀ y : List Nat, x.length = y.length →
    ((GoCsrf.ctcLoop x y).1 = 0 ↔ x = y) := by
  induction x with
  | nil =>
      intro y hlen
      cases y with
      | nil => simp [GoCsrf.ctcLoop]
      | cons b bs => simp at hlen
  | cons a as ih =>
      intro y hlen
      cases y with
      | nil => simp at hlen
      | cons b bs =>
          simp only [List.length_cons] at hlen
          simp only [GoCsrf.ctcLoop, lor_eq_zero_iff, Nat.xor_eq_zero,
            ih bs (by omega), List.cons.injEq]

/-- The modelled `subtle.ConstantTimeCompare` returns 1 exactly on equal
byte lists (byte-sized inputs). -/
theorem constantTimeCompare_spec (x y : List Nat)
    (hx : ∀ b ∈ x, b < 256) (hy : ∀ b ∈ y, b < 256) :
    (GoCsrf.constantTimeCompare x y = 1 ↔ x = y) := by
  unfold GoCsrf.constantTimeCompare
  by_cases hlen : x.length = y.length
  · rw [if_neg (by simpa using hlen)]
    rw [constantTimeByteEq_spec _ (ctcLoop_fst_lt x y hx hy)]
    rw [← ctcLoop_fst_eq_zero x y hlen]
    split <;> simp_all
  · rw [if_pos (by simpa using hlen)]
    constructor
    · intro h; simp at h
    · intro h; exact absurd (congrArg List.length h) hlen

/-- Byte-level equality through `constantTimeCompare` for strings. -/
theorem constantTimeCompare_strBytes (a b : String) :
    (GoCsrf.constantTimeCompare (GoCsrf.strBytes a) (GoCsrf.strBytes b) = 1 ↔
      GoCsrf.strBytes a = GoCsrf.strBytes b) :=
  constantTimeCompare_spec _ _ (strBytes_lt a) (strBytes_lt b)

/-- `ensureCookieToken` reuses a presented cookie of at least 16 bytes. -/
theorem ensure_of_valid (cfg : Config) (entropy : Option (List Nat)) (r : Request)
    (v : String) (hc : r.cookie cfg.cookieName = some v)
    (hlen : 16 ≤ (GoCsrf.strBytes v).length) :
    GoCsrf.ensureCookieToken cfg entropy r = some (v, none) := by
  unfold GoCsrf.ensureCookieToken
  rw [hc]
  simp [hlen]

/-- `ensureCookieToken` generates and sets a fresh cookie when the
incoming cookie is absent or under 16 bytes and the random source
delivers bytes. -/
theorem ensure_of_invalid (cfg : Config) (bs : List Nat) (r : Request)
    (hc : GoCsrf.cookieLooksValid cfg r = false) :
    GoCsrf.ensureCookieToken cfg (some bs) r =
      some (GoCsrf.base64RawURLEncode bs,
        some ⟨cfg.cookieName, GoCsrf.base64RawURLEncode bs, cfg.cookiePath,
          cfg.cookieDomain, cfg.cookieMaxAge, cfg.cookieSameSite, cfg.cookieSecure,
          cfg.cookieHTTPOnly⟩) := by
  unfold GoCsrf.cookieLooksValid at hc
  unfold GoCsrf.ensureCookieToken GoCsrf.newToken
  cases hcv : r.cookie cfg.cookieName with
  | none => rfl
  | some v =>
      rw [hcv] at hc
      simp only [decide_eq_false_iff_not] at hc
      simp [hc]

/-- `ensureCookieToken` errors exactly when generation was needed and the
random source failed. -/
theorem ensure_none_iff (cfg : Config) (entropy : Option (List Nat)) (r : Request) :
    GoCsrf.ensureCookieToken cfg entropy r = none ↔
      GoCsrf.cookieLooksValid cfg r = false ∧ entropy = none := by
  unfold GoCsrf.ensureCookieToken GoCsrf.cookieLooksValid GoCsrf.newToken
  cases hcv : r.cookie cfg.cookieName with
  | none => cases entropy <;> simp
  | some v =>
      by_cases hlen : 16 ≤ (GoCsrf.strBytes v).length
      · simp [hlen]
      · cases entropy <;> simp [hlen]

/-- Reduction of `protect` on an unsafe-method request that survives the
cookie-ensure step and the origin gate: only the token extraction and the
constant-time comparison remain. -/
theorem protect_unsafe_reduce (cfg : Config) (parse : String → Option String)
    (entropy : Option (List Nat)) (r : Request) (ct : String) (sc : Option SetCookie)
    (hm : GoCsrf.unsafeMethods r.method = true)
    (hE : GoCsrf.ensureCookieToken cfg entropy r = some (ct, sc))
    (hOr : ¬(cfg.enforceOriginCheck = true ∧
      (GoCsrf.validateOriginOrReferer parse r cfg.allowedOrigin).isSome)) :
    GoCsrf.protect cfg parse entropy r =
      (if GoCsrf.extractClientToken r cfg.headerName cfg.formField = "" then
        ⟨sc, some ct, Outcome.reject 403 "missing CSRF token"⟩
      else if GoCsrf.constantTimeCompare
          (GoCsrf.strBytes (GoCsrf.extractClientToken r cfg.headerName cfg.formField))
          (GoCsrf.strBytes ct) ≠ 1 then
        ⟨sc, some ct, Outcome.reject 403 "bad CSRF token"⟩
      else ⟨sc, some ct, Outcome.next⟩) := by
  simp only [GoCsrf.protect, hE, hm]
  rw [if_neg (show ¬((true : Bool) = false) by simp), if_neg hOr]

/-- Every run of `protect` ends in `next`, a 403 rejection after a
successful cookie-ensure step, or the 500 rejection of a failed
cookie-ensure step. -/
theorem protect_outcome_cases (cfg : Config) (parse : String → Option String)
    (entropy : Option (List Nat)) (r : Request) :
    (GoCsrf.protect cfg parse entropy r).outcome = Outcome.next ∨
    (∃ b, (GoCsrf.protect cfg parse entropy r).outcome = Outcome.reject 403 b ∧
      (b = "invalid origin" ∨ b = "missing CSRF token" ∨ b = "bad CSRF token") ∧
      GoCsrf.ensureCookieToken cfg entropy r ≠ none) ∨
    ((GoCsrf.protect cfg parse entropy r).outcome =
        Outcome.reject 500 "failed to set CSRF cookie" ∧
      GoCsrf.ensureCookieToken cfg entropy r = none) := by
  rcases hE : GoCsrf.ensureCookieToken cfg entropy r with - | ⟨ct, sc⟩
  · right; right
    refine ⟨?_, rfl⟩
    simp [GoCsrf.protect, hE]
  · have hns : (some (ct, sc) : Option (String × Option SetCookie)) ≠ none := by simp
    simp only [GoCsrf.protect, hE]
    by_cases h1 : GoCsrf.unsafeMethods r.method = false
    · rw [if_pos h1]; left; rfl
    · rw [if_neg h1]
      by_cases h2 : cfg.enforceOriginCheck = true ∧
          (GoCsrf.validateOriginOrReferer parse r cfg.allowedOrigin).isSome
      · rw [if_pos h2]; right; left
        exact ⟨"invalid origin", rfl, Or.inl rfl, hns⟩
      · rw [if_neg h2]
        by_cases h3 : GoCsrf.extractClientToken r cfg.headerName cfg.formField = ""
        · rw [if_pos h3]; right; left
          exact ⟨"missing CSRF token", rfl, Or.inr (Or.inl rfl), hns⟩
        · rw [if_neg h3]
          by_cases h4 : GoCsrf.constantTimeCompare
              (GoCsrf.strBytes (GoCsrf.extractClientToken r cfg.headerName cfg.formField))
              (GoCsrf.strBytes ct) ≠ 1
          · rw [if_pos h4]; right; left
            exact ⟨"bad CSRF token", rfl, Or.inr (Or.inr rfl), hns⟩
          · rw [if_neg h4]; left; rfl

/-! Claim theorems. -/

/-- C2: Requests whose method is outside the case-sensitive set
{POST, PUT, PATCH, DELETE} skip origin and token validation entirely:
after a successful cookie-ensure step and context binding they are
forwarded to next, no matter what tokens or headers are presented;
exactly those four methods undergo validation. -/
theorem protect_safe_method_skips_validation :
    (∀ m : String, GoCsrf.unsafeMethods m = true ↔
      (m = "POST" ∨ m = "PUT" ∨ m = "PATCH" ∨ m = "DELETE")) ∧
    (∀ (cfg : Config) (parse : String → Option String) (entropy : Option (List Nat))
      (r : Request) (ct : String) (sc : Option SetCookie),
      GoCsrf.unsafeMethods r.method = false →
      GoCsrf.ensureCookieToken cfg entropy r = some (ct, sc) →
      GoCsrf.protect cfg parse entropy r = ⟨sc, some ct, Outcome.next⟩) := by
  constructor
  · intro m
    simp [GoCsrf.unsafeMethods, or_assoc]
  · intro cfg parse entropy r ct sc hm hE
    simp only [GoCsrf.protect, hE, hm]
    simp

/-- C2 witness: a GET request presenting no token at all, with origin
enforcement on, is forwarded to next after the cookie-ensure step. -/
theorem protect_safe_method_skips_validation_witness :
    GoCsrf.protect
      ⟨"csrf_token", "/", "", false, false, 2, 0, "X-CSRF-Token", "csrf_token", true, "", 32⟩
      (fun _ => none) none
      ⟨"GET", "example.com", fun _ => "", fun _ => "",
        fun c => if c = "csrf_token" then some "0123456789abcdef" else none⟩ =
      ⟨none, some "0123456789abcdef", Outcome.next⟩ :=
  protect_safe_method_skips_validation.2
    ⟨"csrf_token", "/", "", false, false, 2, 0, "X-CSRF-Token", "csrf_token", true, "", 32⟩
    (fun _ => none) none
    ⟨"GET", "example.com", fun _ => "", fun _ => "",
      fun c => if c = "csrf_token" then some "0123456789abcdef" else none⟩
    "0123456789abcdef" none (by decide) (by decide)

/-- C4: the cookie-ensure step keeps a presented cookie whose value is at
least 16 bytes long and writes nothing; when the cookie is absent or its
value is shorter than 16 bytes, it generates a fresh token and sets it as
a response cookie carrying the configured name, path, domain, max-age,
same-site and secure attributes. -/
theorem ensureCookieToken_cookie_policy (cfg : Config) (entropy : Option (List Nat))
    (r : Request) :
    (∀ v : String, r.cookie cfg.cookieName = some v → 16 ≤ (GoCsrf.strBytes v).length →
      GoCsrf.ensureCookieToken cfg entropy r = some (v, none)) ∧
    (∀ bs : List Nat, GoCsrf.cookieLooksValid cfg r = false → entropy = some bs →
      GoCsrf.ensureCookieToken cfg entropy r =
        some (GoCsrf.base64RawURLEncode bs,
          some ⟨cfg.cookieName, GoCsrf.base64RawURLEncode bs, cfg.cookiePath,
            cfg.cookieDomain, cfg.cookieMaxAge, cfg.cookieSameSite, cfg.cookieSecure,
            cfg.cookieHTTPOnly⟩)) := by
  constructor
  · intro v hc hlen
    exact ensure_of_valid cfg entropy r v hc hlen
  · intro bs hc hent
    rw [hent]
    exact ensure_of_invalid cfg bs r hc

/-- C4 witness: a 16-byte cookie is kept unchanged with no Set-Cookie,
evaluated at a concrete request. -/
theorem ensureCookieToken_cookie_policy_witness :
    GoCsrf.ensureCookieToken
      ⟨"csrf_token", "/", "", false, false, 2, 0, "X-CSRF-Token", "csrf_token", false, "", 32⟩
      none
      ⟨"GET", "example.com", fun _ => "", fun _ => "",
        fun c => if c = "csrf_token" then some "0123456789abcdef" else none⟩ =
      some ("0123456789abcdef", none) :=
  (ensureCookieToken_cookie_policy
    ⟨"csrf_token", "/", "", false, false, 2, 0, "X-CSRF-Token", "csrf_token", false, "", 32⟩
    none
    ⟨"GET", "example.com", fun _ => "", fun _ => "",
      fun c => if c = "csrf_token" then some "0123456789abcdef" else none⟩).1
    "0123456789abcdef" (by decide) (by decide)

/-- C8: `new` replaces each unset field by its fixed default (cookie name
csrf_token, path /, header X-CSRF-Token, form field csrf_token, token
byte-length 32, same-site Lax), leaves set fields and all remaining
fields untouched, and afterwards each defaulted field is non-empty
respectively positive/non-zero. -/
theorem new_applies_defaults (cfg : Config) :
    ((GoCsrf.new cfg).cookieName =
      if cfg.cookieName = "" then "csrf_token" else cfg.cookieName) ∧
    ((GoCsrf.new cfg).cookiePath = if cfg.cookiePath = "" then "/" else cfg.cookiePath) ∧
    ((GoCsrf.new cfg).headerName =
      if cfg.headerName = "" then "X-CSRF-Token" else cfg.headerName) ∧
    ((GoCsrf.new cfg).formField =
      if cfg.formField = "" then "csrf_token" else cfg.formField) ∧
    ((GoCsrf.new cfg).tokenBytes = if cfg.tokenBytes ≤ 0 then 32 else cfg.tokenBytes) ∧
    ((GoCsrf.new cfg).cookieSameSite =
      if cfg.cookieSameSite = 0 then GoCsrf.sameSiteLax else cfg.cookieSameSite) ∧
    (GoCsrf.new cfg).cookieName ≠ "" ∧
    (GoCsrf.new cfg).cookiePath ≠ "" ∧
    (GoCsrf.new cfg).headerName ≠ "" ∧
    (GoCsrf.new cfg).formField ≠ "" ∧
    0 < (GoCsrf.new cfg).tokenBytes ∧
    (GoCsrf.new cfg).cookieSameSite ≠ 0 ∧
    (GoCsrf.new cfg).cookieDomain = cfg.cookieDomain ∧
    (GoCsrf.new cfg).cookieSecure = cfg.cookieSecure ∧
    (GoCsrf.new cfg).cookieHTTPOnly = cfg.cookieHTTPOnly ∧
    (GoCsrf.new cfg).cookieMaxAge = cfg.cookieMaxAge ∧
    (GoCsrf.new cfg).enforceOriginCheck = cfg.enforceOriginCheck ∧
    (GoCsrf.new cfg).allowedOrigin = cfg.allowedOrigin := by
  unfold GoCsrf.new
  refine ⟨rfl, rfl, rfl, rfl, rfl, rfl, ?_, ?_, ?_, ?_, ?_, ?_, rfl, rfl, rfl, rfl, rfl, rfl⟩
  · simp only []
    split <;> simp_all
  · simp only []
    split <;> simp_all
  · simp only []
    split <;> simp_all
  · simp only []
    split <;> simp_all
  · simp only []
    split <;> omega
  · simp only [GoCsrf.sameSiteLax]
    split <;> omega

/-- Every base64url digit below 64 maps to a character of the URL-safe
alphabet, which contains neither padding nor plus. -/
theorem b64Char_valid : ∀ i : Nat, i < 64 →
    GoCsrf.isBase64URLChar (GoCsrf.b64Char i) = true ∧
    GoCsrf.b64Char i ≠ '=' ∧ GoCsrf.b64Char i ≠ '+' := by decide

/-- Output length of the unpadded base64url encoder: the ceiling of
4n/3 characters for n input bytes. -/
theorem base64RawURLChars_length (bs : List Nat) :
    (GoCsrf.base64RawURLChars bs).length = (4 * bs.length + 2) / 3 := by
  induction bs using GoCsrf.base64RawURLChars.induct with
  | case1 => rfl
  | case2 b0 => simp [GoCsrf.base64RawURLChars]
  | case3 b0 b1 => simp [GoCsrf.base64RawURLChars]
  | case4 b0 b1 b2 rest ih =>
      simp only [GoCsrf.base64RawURLChars, List.length_cons, ih]
      omega

/-- Every character the unpadded base64url encoder emits on byte input
lies in the URL-safe alphabet. -/
theorem base64RawURLChars_mem (bs : List Nat) :
    (∀ b ∈ bs, b < 256) → ∀ c ∈ GoCsrf.base64RawURLChars bs,
      GoCsrf.isBase64URLChar c = true ∧ c ≠ '=' ∧ c ≠ '+' := by
  induction bs using GoCsrf.base64RawURLChars.induct with
  | case1 => intro _ c hc; simp [GoCsrf.base64RawURLChars] at hc
  | case2 b0 =>
      intro hb c hc
      have h0 : b0 < 256 := hb b0 (by simp)
      fin_cases hc <;> exact b64Char_valid _ (by omega)
  | case3 b0 b1 =>
      intro hb c hc
      have h0 : b0 < 256 := hb b0 (by simp)
      have h1 : b1 < 256 := hb b1 (by simp)
      fin_cases hc <;> exact b64Char_valid _ (by omega)
  | case4 b0 b1 b2 rest ih =>
      intro hb c hc
      have h0 : b0 < 256 := hb b0 (by simp)
      have h1 : b1 < 256 := hb b1 (by simp)
      have h2 : b2 < 256 := hb b2 (by simp)
      simp only [GoCsrf.base64RawURLChars, List.mem_cons] at hc
      rcases hc with rfl | rfl | rfl | rfl | hc
      · exact b64Char_valid _ (by omega)
      · exact b64Char_valid _ (by omega)
      · exact b64Char_valid _ (by omega)
      · exact b64Char_valid _ (by omega)
      · exact ih (fun b hbm => hb b (by simp [hbm])) c hc

/-- C9: on success for a positive byte count n, the token generator
returns the unpadded URL-safe base64 encoding of the n random bytes
drawn: a string of ceil(4n/3) characters, all from the URL-safe alphabet
A-Z, a-z, 0-9, minus, underscore, never a padding equals sign or a
plus. -/
theorem newToken_base64url (n : Int) (bs : List Nat) (hn : 0 < n)
    (hlen : bs.length = n.toNat) (hb : ∀ b ∈ bs, b < 256) :
    GoCsrf.newToken n (some bs) = some (GoCsrf.base64RawURLEncode bs) ∧
    (GoCsrf.base64RawURLEncode bs).length = (4 * n.toNat + 2) / 3 ∧
    (∀ c ∈ (GoCsrf.base64RawURLEncode bs).data,
      GoCsrf.isBase64URLChar c = true ∧ c ≠ '=' ∧ c ≠ '+') := by
  refine ⟨rfl, ?_, ?_⟩
  · have h1 : (GoCsrf.base64RawURLEncode bs).length =
        (GoCsrf.base64RawURLChars bs).length := rfl
    rw [h1, base64RawURLChars_length, hlen]
  · intro c hc
    have h2 : (GoCsrf.base64RawURLEncode bs).data = GoCsrf.base64RawURLChars bs := rfl
    rw [h2] at hc
    exact base64RawURLChars_mem bs hb c hc

/-- C9 witness: 32 random bytes (the default entropy) encode to a
43-character token. -/
theorem newToken_base64url_witness :
    (GoCsrf.base64RawURLEncode (List.replicate 32 0)).length = 43 := by
  have h := newToken_base64url 32 (List.replicate 32 0) (by decide) (by decide) (by decide)
  have h2 := h.2.1
  norm_num at h2
  exact h2

/-- C10: the token comparison routine runs a number of loop iterations
that is a function of the operand lengths alone, never of where the
operands first differ, and it needs no equal-length assumption: unequal
lengths yield result 0 after zero iterations. -/
theorem constantTimeCompare_fixed_cost (x y u v : List Nat)
    (hx : x.length = u.length) (hy : y.length = v.length) :
    GoCsrf.compareSteps x y = GoCsrf.compareSteps u v ∧
    (x.length = y.length → GoCsrf.compareSteps x y = x.length) ∧
    (x.length ≠ y.length →
      GoCsrf.constantTimeCompare x y = 0 ∧ GoCsrf.compareSteps x y = 0) := by
  refine ⟨?_, ?_, ?_⟩
  · unfold GoCsrf.compareSteps
    rw [ctcLoop_snd, ctcLoop_snd, hx, hy]
  · intro h
    unfold GoCsrf.compareSteps
    rw [if_neg (by simpa using h), ctcLoop_snd]
    omega
  · intro h
    unfold GoCsrf.constantTimeCompare GoCsrf.compareSteps
    rw [if_pos (by simpa using h), if_pos (by simpa using h)]
    exact ⟨rfl, rfl⟩

/-- C10 witness: operands differing first at position 0 and operands
differing first at position 2 take the same number of iterations. -/
theorem constantTimeCompare_fixed_cost_witness :
    GoCsrf.compareSteps [1, 2, 3] [9, 9, 9] = GoCsrf.compareSteps [1, 2, 3] [1, 2, 9] :=
  (constantTimeCompare_fixed_cost [1, 2, 3] [9, 9, 9] [1, 2, 3] [1, 2, 9]
    (by decide) (by decide)).1

/-- C1: on an unsafe-method request whose cookie-ensure step succeeded
and whose origin gate is disabled or passed, the filter reads the
configured header first and falls back to the configured form field;
an empty extraction yields 403 with body missing CSRF token and no call
to next; an extracted token whose bytes differ from the cookie-resolved
token yields 403 with body bad CSRF token and no call to next; next runs
exactly when the extracted token equals the cookie-resolved token
byte-for-byte. -/
theorem protect_unsafe_token_validation (cfg : Config) (parse : String → Option String)
    (entropy : Option (List Nat)) (r : Request) (ct : String) (sc : Option SetCookie)
    (hm : GoCsrf.unsafeMethods r.method = true)
    (hE : GoCsrf.ensureCookieToken cfg entropy r = some (ct, sc))
    (hO : cfg.enforceOriginCheck = false ∨
      GoCsrf.validateOriginOrReferer parse r cfg.allowedOrigin = none) :
    (GoCsrf.extractClientToken r cfg.headerName cfg.formField =
      (if r.header cfg.headerName ≠ "" then r.header cfg.headerName
        else r.form cfg.formField)) ∧
    (GoCsrf.extractClientToken r cfg.headerName cfg.formField = "" →
      GoCsrf.protect cfg parse entropy r =
        ⟨sc, some ct, Outcome.reject 403 "missing CSRF token"⟩) ∧
    (GoCsrf.extractClientToken r cfg.headerName cfg.formField ≠ "" →
      GoCsrf.strBytes (GoCsrf.extractClientToken r cfg.headerName cfg.formField) ≠
        GoCsrf.strBytes ct →
      GoCsrf.protect cfg parse entropy r =
        ⟨sc, some ct, Outcome.reject 403 "bad CSRF token"⟩) ∧
    ((GoCsrf.protect cfg parse entropy r).outcome = Outcome.next ↔
      (GoCsrf.extractClientToken r cfg.headerName cfg.formField ≠ "" ∧
        GoCsrf.strBytes (GoCsrf.extractClientToken r cfg.headerName cfg.formField) =
          GoCsrf.strBytes ct)) ∧
    (ct ≠ "" →
      ((GoCsrf.protect cfg parse entropy r).outcome = Outcome.next ↔
        GoCsrf.strBytes (GoCsrf.extractClientToken r cfg.headerName cfg.formField) =
          GoCsrf.strBytes ct)) := by
  have hOr : ¬(cfg.enforceOriginCheck = true ∧
      (GoCsrf.validateOriginOrReferer parse r cfg.allowedOrigin).isSome) := by
    rcases hO with h | h <;> simp [h]
  have hred := protect_unsafe_reduce cfg parse entropy r ct sc hm hE hOr
  have hext : GoCsrf.extractClientToken r cfg.headerName cfg.formField =
      (if r.header cfg.headerName ≠ "" then r.header cfg.headerName
        else r.form cfg.formField) := by
    unfold GoCsrf.extractClientToken
    by_cases h1 : r.header cfg.headerName ≠ ""
    · rw [if_pos h1, if_pos h1]
    · rw [if_neg h1, if_neg h1]
      by_cases h2 : r.form cfg.formField ≠ ""
      · rw [if_pos h2]
      · rw [if_neg h2]
        push_neg at h2
        exact h2.symm
  have hmain : (GoCsrf.protect cfg parse entropy r).outcome = Outcome.next ↔
      (GoCsrf.extractClientToken r cfg.headerName cfg.formField ≠ "" ∧
        GoCsrf.strBytes (GoCsrf.extractClientToken r cfg.headerName cfg.formField) =
          GoCsrf.strBytes ct) := by
    rw [hred]
    by_cases he0 : GoCsrf.extractClientToken r cfg.headerName cfg.formField = ""
    · rw [if_pos he0]
      simp [he0]
    · rw [if_neg he0]
      by_cases hb : GoCsrf.strBytes (GoCsrf.extractClientToken r cfg.headerName cfg.formField) =
          GoCsrf.strBytes ct
      · have h1 := (constantTimeCompare_strBytes _ ct).mpr hb
        rw [if_neg (by simp [h1])]
        simp [he0, hb]
      · have h1 : GoCsrf.constantTimeCompare
            (GoCsrf.strBytes (GoCsrf.extractClientToken r cfg.headerName cfg.formField))
            (GoCsrf.strBytes ct) ≠ 1 :=
          fun h => hb ((constantTimeCompare_strBytes _ ct).mp h)
        rw [if_pos h1]
        simp [hb]
  refine ⟨hext, ?_, ?_, hmain, ?_⟩
  · intro h0
    rw [hred, if_pos h0]
  · intro hne hbytes
    have h1 : GoCsrf.constantTimeCompare
        (GoCsrf.strBytes (GoCsrf.extractClientToken r cfg.headerName cfg.formField))
        (GoCsrf.strBytes ct) ≠ 1 :=
      fun h => hbytes ((constantTimeCompare_strBytes _ ct).mp h)
    rw [hred, if_neg hne, if_pos h1]
  · intro hct
    rw [hmain]
    constructor
    · exact fun h => h.2
    · intro hb
      refine ⟨?_, hb⟩
      intro he0
      rw [he0] at hb
      have : GoCsrf.strBytes ct = [] := by
        rw [← hb]
        rfl
      exact hct ((strBytes_eq_nil ct).mp this)

/-- C1 witness: a POST request presenting the cookie token in the header
is forwarded to next. -/
theorem protect_unsafe_token_validation_witness :
    (GoCsrf.protect
      ⟨"csrf_token", "/", "", false, false, 2, 0, "X-CSRF-Token", "csrf_token", false, "", 32⟩
      (fun _ => none) none
      ⟨"POST", "example.com",
        fun h => if h = "X-CSRF-Token" then "0123456789abcdef" else "",
        fun _ => "",
        fun c => if c = "csrf_token" then some "0123456789abcdef" else none⟩).outcome =
      Outcome.next :=
  (protect_unsafe_token_validation
    ⟨"csrf_token", "/", "", false, false, 2, 0, "X-CSRF-Token", "csrf_token", false, "", 32⟩
    (fun _ => none) none
    ⟨"POST", "example.com",
      fun h => if h = "X-CSRF-Token" then "0123456789abcdef" else "",
      fun _ => "",
      fun c => if c = "csrf_token" then some "0123456789abcdef" else none⟩
    "0123456789abcdef" none (by decide) (by decide)
    (Or.inl rfl)).2.2.2.1.mpr ⟨by decide, by decide⟩

/-- C3: the origin validator uses the override as effective allowed host
when it is non-empty and the request host otherwise; it fails when
Origin and Referer are both empty; with a non-empty Origin it succeeds
exactly when the parsed Origin host equals the effective host
case-insensitively (Referer is not consulted); with empty Origin and
non-empty Referer the same comparison is applied to Referer; a parse
failure counts as a mismatch. -/
theorem validateOriginOrReferer_policy (parse : String → Option String) (r : Request)
    (allowed : String) :
    (r.header "Origin" = "" → r.header "Referer" = "" →
      GoCsrf.validateOriginOrReferer parse r allowed ≠ none) ∧
    (r.header "Origin" ≠ "" →
      (GoCsrf.validateOriginOrReferer parse r allowed = none ↔
        GoCsrf.sameSite parse (r.header "Origin")
          (if allowed = "" then r.host else allowed) = true)) ∧
    (r.header "Origin" = "" → r.header "Referer" ≠ "" →
      (GoCsrf.validateOriginOrReferer parse r allowed = none ↔
        GoCsrf.sameSite parse (r.header "Referer")
          (if allowed = "" then r.host else allowed) = true)) ∧
    (∀ s h, GoCsrf.sameSite parse s h = true ↔
      ∃ hostC, parse s = some hostC ∧ GoCsrf.eqFold hostC h = true) ∧
    (∀ s h, parse s = none → GoCsrf.sameSite parse s h = false) := by
  refine ⟨?_, ?_, ?_, ?_, ?_⟩
  · intro h1 h2
    simp [GoCsrf.validateOriginOrReferer, h1, h2]
  · intro h1
    unfold GoCsrf.validateOriginOrReferer
    rw [if_neg (by simp [h1])]
    by_cases hss : GoCsrf.sameSite parse (r.header "Origin")
        (if allowed = "" then r.host else allowed) = true
    · rw [if_neg (by simp [hss]), if_neg (by simp [h1])]
      simp [hss]
    · rw [if_pos ⟨h1, by simpa using hss⟩]
      simp [hss]
  · intro h1 h2
    unfold GoCsrf.validateOriginOrReferer
    rw [if_neg (by simp [h2]), if_neg (by simp [h1])]
    by_cases hss : GoCsrf.sameSite parse (r.header "Referer")
        (if allowed = "" then r.host else allowed) = true
    · rw [if_neg (by simp [hss])]
      simp [hss]
    · rw [if_pos ⟨h1, h2, by simpa using hss⟩]
      simp [hss]
  · intro s h
    unfold GoCsrf.sameSite
    cases hp : parse s with
    | none => simp
    | some h0 => simp
  · intro s h hp
    simp [GoCsrf.sameSite, hp]

/-- C3 witness: with no override, Origin parsing to a host differing only
in letter case from the request host is accepted. -/
theorem validateOriginOrReferer_policy_witness :
    GoCsrf.validateOriginOrReferer
      (fun s => if s = "https://EXAMPLE.com" then some "EXAMPLE.com" else none)
      ⟨"POST", "example.com",
        fun h => if h = "Origin" then "https://EXAMPLE.com" else "",
        fun _ => "", fun _ => none⟩
      "" = none :=
  ((validateOriginOrReferer_policy
    (fun s => if s = "https://EXAMPLE.com" then some "EXAMPLE.com" else none)
    ⟨"POST", "example.com",
      fun h => if h = "Origin" then "https://EXAMPLE.com" else "",
      fun _ => "", fun _ => none⟩
    "").2.1 (by decide)).mpr (by decide)

/-- C5: the random source failing while a token must be generated makes
the filter answer 500 with body failed to set CSRF cookie, bind no
context token, set no cookie and skip next; and a 500 rejection happens
exactly when the cookie-ensure step failed, which requires both an
invalid incoming cookie and a failed random source. -/
theorem protect_generation_failure (cfg : Config) (parse : String → Option String)
    (entropy : Option (List Nat)) (r : Request) :
    (GoCsrf.ensureCookieToken cfg entropy r = none ↔
      GoCsrf.cookieLooksValid cfg r = false ∧ entropy = none) ∧
    (entropy = none → GoCsrf.cookieLooksValid cfg r = false →
      GoCsrf.protect cfg parse entropy r =
        ⟨none, none, Outcome.reject 500 "failed to set CSRF cookie"⟩) ∧
    (∀ n b, (GoCsrf.protect cfg parse entropy r).outcome = Outcome.reject n b →
      n = 500 →
      (GoCsrf.ensureCookieToken cfg entropy r = none ∧
        b = "failed to set CSRF cookie")) := by
  refine ⟨ensure_none_iff cfg entropy r, ?_, ?_⟩
  · intro he hc
    have hE : GoCsrf.ensureCookieToken cfg entropy r = none :=
      (ensure_none_iff cfg entropy r).mpr ⟨hc, he⟩
    simp [GoCsrf.protect, hE]
  · intro n b hout h500
    rcases protect_outcome_cases cfg parse entropy r with hN | ⟨b2, hR, -, -⟩ | ⟨hR, hEn⟩
    · rw [hout] at hN
      cases hN
    · rw [hout] at hR
      rw [Outcome.reject.injEq] at hR
      omega
    · rw [hout] at hR
      rw [Outcome.reject.injEq] at hR
      exact ⟨hEn, hR.2⟩

/-- C5 witness: a request with no cookie and a failing random source gets
the 500 rejection with no cookie set and no context token. -/
theorem protect_generation_failure_witness :
    GoCsrf.protect
      ⟨"csrf_token", "/", "", false, false, 2, 0, "X-CSRF-Token", "csrf_token", false, "", 32⟩
      (fun _ => none) none
      ⟨"GET", "example.com", fun _ => "", fun _ => "", fun _ => none⟩ =
      ⟨none, none, Outcome.reject 500 "failed to set CSRF cookie"⟩ :=
  (protect_generation_failure
    ⟨"csrf_token", "/", "", false, false, 2, 0, "X-CSRF-Token", "csrf_token", false, "", 32⟩
    (fun _ => none) none
    ⟨"GET", "example.com", fun _ => "", fun _ => "", fun _ => none⟩).2.1 rfl (by decide)

/-- C6: the cookie-ensure step checks only the byte length of an existing
cookie value, never its alphabet nor its relation to the configured token
byte-length: any cookie value of at least 16 bytes is adopted as the
current token, and an unsafe request echoing that same value in the
header (or, with an empty header, in the form field) is forwarded to
next. -/
theorem protect_cookie_value_length_only (cfg : Config) (parse : String → Option String)
    (entropy : Option (List Nat)) (r : Request) (X : String)
    (hc : r.cookie cfg.cookieName = some X)
    (hlen : 16 ≤ (GoCsrf.strBytes X).length)
    (hm : GoCsrf.unsafeMethods r.method = true)
    (hO : cfg.enforceOriginCheck = false) :
    GoCsrf.ensureCookieToken cfg entropy r = some (X, none) ∧
    (r.header cfg.headerName = X →
      GoCsrf.protect cfg parse entropy r = ⟨none, some X, Outcome.next⟩) ∧
    (r.header cfg.headerName = "" → r.form cfg.formField = X →
      GoCsrf.protect cfg parse entropy r = ⟨none, some X, Outcome.next⟩) := by
  have hE := ensure_of_valid cfg entropy r X hc hlen
  have hXne : X ≠ "" := by
    intro h
    rw [h] at hlen
    have : GoCsrf.strBytes "" = [] := rfl
    rw [this] at hlen
    simp at hlen
  have hOr : ¬(cfg.enforceOriginCheck = true ∧
      (GoCsrf.validateOriginOrReferer parse r cfg.allowedOrigin).isSome) := by
    simp [hO]
  have hred := protect_unsafe_reduce cfg parse entropy r X none hm hE hOr
  have h1 : GoCsrf.constantTimeCompare (GoCsrf.strBytes X) (GoCsrf.strBytes X) = 1 :=
    (constantTimeCompare_strBytes X X).mpr rfl
  refine ⟨hE, ?_, ?_⟩
  · intro hh
    have hext : GoCsrf.extractClientToken r cfg.headerName cfg.formField = X := by
      unfold GoCsrf.extractClientToken
      rw [hh, if_pos hXne]
    rw [hred, hext, if_neg hXne, if_neg (by simp [h1])]
  · intro hh hf
    have hext : GoCsrf.extractClientToken r cfg.headerName cfg.formField = X := by
      unfold GoCsrf.extractClientToken
      rw [hh, hf, if_neg (by simp), if_pos hXne]
    rw [hred, hext, if_neg hXne, if_neg (by simp [h1])]

/-- C6 witness: a cookie value that is not base64url and not 43
characters long, echoed in the header of a POST, is accepted and the
request forwarded. -/
theorem protect_cookie_value_length_only_witness :
    GoCsrf.protect
      ⟨"csrf_token", "/", "", false, false, 2, 0, "X-CSRF-Token", "csrf_token", false, "", 32⟩
      (fun _ => none) none
      ⟨"POST", "example.com",
        fun h => if h = "X-CSRF-Token" then "not base64url @@ value!" else "",
        fun _ => "",
        fun c => if c = "csrf_token" then some "not base64url @@ value!" else none⟩ =
      ⟨none, some "not base64url @@ value!", Outcome.next⟩ :=
  (protect_cookie_value_length_only
    ⟨"csrf_token", "/", "", false, false, 2, 0, "X-CSRF-Token", "csrf_token", false, "", 32⟩
    (fun _ => none) none
    ⟨"POST", "example.com",
      fun h => if h = "X-CSRF-Token" then "not base64url @@ value!" else "",
      fun _ => "",
      fun c => if c = "csrf_token" then some "not base64url @@ value!" else none⟩
    "not base64url @@ value!" (by decide) (by decide) (by decide) rfl).2.1 (by decide)

/-- C7: because the cookie-ensure step runs first, an unsafe request
without a valid cookie whose generation succeeds carries the freshly
generated Set-Cookie and the bound context token on every outcome, and
any rejection it receives is one of the three 403 rejections (invalid
origin, missing CSRF token, bad CSRF token) with the cookie still set. -/
theorem protect_rejection_still_sets_cookie (cfg : Config)
    (parse : String → Option String) (bs : List Nat) (r : Request)
    (hc : GoCsrf.cookieLooksValid cfg r = false) :
    ((GoCsrf.protect cfg parse (some bs) r).setCookie =
      some ⟨cfg.cookieName, GoCsrf.base64RawURLEncode bs, cfg.cookiePath,
        cfg.cookieDomain, cfg.cookieMaxAge, cfg.cookieSameSite, cfg.cookieSecure,
        cfg.cookieHTTPOnly⟩) ∧
    ((GoCsrf.protect cfg parse (some bs) r).ctxToken =
      some (GoCsrf.base64RawURLEncode bs)) ∧
    (∀ n b, (GoCsrf.protect cfg parse (some bs) r).outcome = Outcome.reject n b →
      n = 403 ∧
      (b = "invalid origin" ∨ b = "missing CSRF token" ∨ b = "bad CSRF token")) := by
  have hE := ensure_of_invalid cfg bs r hc
  refine ⟨?_, ?_, ?_⟩
  · simp only [GoCsrf.protect, hE]
    split_ifs <;> rfl
  · simp only [GoCsrf.protect, hE]
    split_ifs <;> rfl
  · intro n b hout
    rcases protect_outcome_cases cfg parse (some bs) r with hN | ⟨b2, hR, hmem, -⟩ | ⟨-, hEn⟩
    · rw [hout] at hN
      cases hN
    · rw [hout] at hR
      rw [Outcome.reject.injEq] at hR
      refine ⟨hR.1, ?_⟩
      rw [hR.2]
      exact hmem
    · rw [hE] at hEn
      cases hEn

/-- C7 witness: a POST with no cookie and no token is rejected 403
missing CSRF token, yet the response still carries the fresh token
cookie. -/
theorem protect_rejection_still_sets_cookie_witness :
    (GoCsrf.protect
      ⟨"csrf_token", "/", "", false, false, 2, 0, "X-CSRF-Token", "csrf_token", false, "", 32⟩
      (fun _ => none) (some (List.replicate 32 0))
      ⟨"POST", "example.com", fun _ => "", fun _ => "", fun _ => none⟩).setCookie =
      some ⟨"csrf_token", GoCsrf.base64RawURLEncode (List.replicate 32 0), "/", "",
        0, 2, false, false⟩ :=
  (protect_rejection_still_sets_cookie
    ⟨"csrf_token", "/", "", false, false, 2, 0, "X-CSRF-Token", "csrf_token", false, "", 32⟩
    (fun _ => none) (List.replicate 32 0)
    ⟨"POST", "example.com", fun _ => "", fun _ => "", fun _ => none⟩ (by decide)).1

end GoCsrf
